import Mathlib

/-!
Shallow embedding of the qdrant-mcp memory server (src/client.ts, src/server.ts)
and verification of its specification claims.

The TypeScript code is embedded as pure Lean functions: each async handler
becomes a function from its arguments and an environment (the outcomes of the
remote calls it would make) to an `Except`-result paired with the ordered trace
of network operations it issued.  JavaScript values flowing through the code are
modelled by a `Json` inductive; JavaScript truthiness (`a || b`, `if (x)`) is
modelled explicitly.  Machine floats (embedding coordinates, scores) are
modelled as exact rationals; `Number.prototype.toFixed` is modelled by the
ECMAScript rounding rule on exact rationals.
-/

/-- Single-quote character, used in the error-message strings of client.ts. -/
def squote : String := String.mk [Char.ofNat 39]

/-- A JavaScript value as it appears in JSON bodies: the payloads, request
bodies and response bodies that client.ts and server.ts pass around. -/
inductive Json where
  | null
  | bool (b : Bool)
  | num (q : Rat)
  | str (s : String)
  | arr (elems : List Json)
  | obj (fields : List (String × Json))

/-- JavaScript truthiness of a value: `undefined`/`null`, `false`, `0` and the
empty string are falsy; every object and array (even empty) is truthy. -/
def Json.falsy : Json → Bool
  | .null => true
  | .bool b => !b
  | .num q => q == 0
  | .str s => s == ""
  | .arr _ => false
  | .obj _ => false

/-- Property lookup on an object (`x.k`); `undefined` (none) on non-objects,
mirroring the optional-chaining accesses in client.ts. -/
def Json.getField? : Json → String → Option Json
  | .obj fields, key => fields.lookup key
  | _, _ => none

mutual
/-- Model of `JSON.stringify` (ignoring whitespace and string escapes, which no
claim depends on). -/
def Json.stringify : Json → String
  | .null => "null"
  | .bool b => if b then "true" else "false"
  | .num q => toString q
  | .str s => "\"" ++ s ++ "\""
  | .arr elems => "[" ++ Json.stringifyElems elems ++ "]"
  | .obj fields => "\x7b" ++ Json.stringifyFields fields ++ "\x7d"

def Json.stringifyElems : List Json → String
  | [] => ""
  | [x] => Json.stringify x
  | x :: y :: rest => Json.stringify x ++ "," ++ Json.stringifyElems (y :: rest)

def Json.stringifyFields : List (String × Json) → String
  | [] => ""
  | [(k, v)] => "\"" ++ k ++ "\":" ++ Json.stringify v
  | (k, v) :: f :: rest =>
      "\"" ++ k ++ "\":" ++ Json.stringify v ++ "," ++ Json.stringifyFields (f :: rest)
end

/-- JavaScript `a || b` on optional strings, where an absent value and the
empty string are both falsy. -/
def jsOrStr : Option String → Option String → Option String
  | some s, b => if s = "" then b else some s
  | none, b => b

/-- `t` occurs at the head of `s` (character-list prefix test). -/
def leadsWith : List Char → List Char → Bool
  | [], _ => true
  | _ :: _, [] => false
  | c :: t, d :: s => c == d && leadsWith t s

/-- `String.prototype.includes`: `t` occurs contiguously inside `s`. -/
def charsInclude : List Char → List Char → Bool
  | [], t => t.isEmpty
  | c :: s, t => leadsWith t (c :: s) || charsInclude s t

/-- Model of `s.includes(t)`. -/
def strIncludes (s t : String) : Bool := charsInclude s.data t.data

/-- `t` is a contiguous substring of `s` (propositional form, used to state
the "message contains ..." parts of the claims). -/
def containsStr (s t : String) : Prop := t.data <:+: s.data

instance (s t : String) : Decidable (containsStr s t) :=
  inferInstanceAs (Decidable (t.data <:+: s.data))

/-- Left-pad a string with zeros to 4 characters. -/
def padZero4 (s : String) : String :=
  String.mk (List.replicate (4 - s.length) (Char.ofNat 48)) ++ s

/-- Model of `Number.prototype.toFixed(4)` on exact rationals: the integer `n`
nearest `q * 10^4`, ties toward the larger `n` (ECMAScript 6.1.6.1.12 rule),
rendered with exactly four fraction digits. -/
def toFixed4 (q : Rat) : String :=
  let n : Int := Int.floor (q * 10000 + 1/2)
  let m : Nat := n.natAbs
  (if n < 0 then "-" else "")
    ++ toString (m / 10000) ++ "." ++ padZero4 (toString (m % 10000))

/-!
## VectorStoreClient (src/client.ts, class QdrantHttpClient)

Each client method performs one HTTP request; it is embedded as a pure
function from its arguments and the remote response to `Except String α`
(`.error` = the method throws, with the thrown message).  The response is
modelled by `HttpResponse`: `body = some j` means `response.json()` resolves
to `j`; `body = none` means the body is not parseable as JSON (so `json()`
rejects).
-/

/-- The remote HTTP response a client method observes. -/
structure HttpResponse where
  ok : Bool
  status : Nat
  statusText : String
  body : Option Json

/-- Request body of `createCollection` (client.ts line 42): fixed cosine
distance and the given dimensionality. -/
def createCollectionBody (vectorSize : Nat) : Json :=
  .obj [("vectors", .obj [("size", .num vectorSize), ("distance", .str "Cosine")])]

/-- Endpoint of `createCollection` (client.ts line 40). -/
def createCollectionEndpoint (collectionName : String) : String :=
  "/collections/" ++ collectionName

/-- `QdrantHttpClient.createCollection` (client.ts lines 36-53): PUT the
collection; throw unless the response is ok or has status 409. -/
def createCollection (_collectionName : String) (_vectorSize : Nat)
    (resp : HttpResponse) : Except String Unit :=
  if !resp.ok && resp.status != 409 then
    .error ("Failed to create collection: " ++ resp.statusText)
  else
    .ok ()

/-- The `a?.b` read of a string-valued nested field, as in
`errorResponse.error?.message` (client.ts lines 71-72): `some s` when the
outer field is an object carrying the inner field as a string. -/
def nestedStrField (body : Json) (outer inner : String) : Option String :=
  match (body.getField? outer).bind (fun j => j.getField? inner) with
  | some (.str s) => some s
  | _ => none

/-- JavaScript `a || b` where `a` is an optional string (absent or empty
means falsy) and `b` is a string. -/
def jsOrStrD (a : Option String) (b : String) : String :=
  match a with
  | some s => if s = "" then b else s
  | none => b

/-- The error-details extraction shared by `upsertPoints` and `searchPoints`
(client.ts lines 66-76 and 112-122): on a parseable body, take
`error?.message`, else `status?.error`, else the stringified body; if the
body cannot be parsed, keep the transport status text. -/
def extractErrorDetails (body : Option Json) (statusText : String) : String :=
  match body with
  | none => statusText
  | some j =>
      jsOrStrD (nestedStrField j "error" "message")
        (jsOrStrD (nestedStrField j "status" "error") (Json.stringify j))

/-- One stored point as supplied to `upsertPoints` (server.ts lines 222-228). -/
structure Point where
  id : String
  vector : List Rat
  payload : Json

/-- `QdrantHttpClient.upsertPoints` (client.ts lines 55-81): PUT the points;
on a non-ok response throw with the extracted error details. -/
def upsertPoints (collectionName : String) (_points : List Point)
    (resp : HttpResponse) : Except String Unit :=
  if resp.ok then
    .ok ()
  else
    .error ("Failed to upsert points in collection " ++ squote ++ collectionName
      ++ squote ++ ": " ++ extractErrorDetails resp.body resp.statusText)

/-- Truthiness of the optional `vectorName` argument (`if (vectorName)`,
client.ts line 95): absent or empty is falsy. -/
def vectorNameTruthy : Option String → Bool
  | some s => !(s == "")
  | none => false

/-- The `vector` field of the search request body (client.ts lines 94-102):
a `\x7bname, vector\x7d` object when a truthy vector name is given, else the
plain query-vector array. -/
def searchVectorField (queryVector : List Rat) (vectorName : Option String) : Json :=
  if vectorNameTruthy vectorName then
    .obj [("name", .str (vectorName.getD "")), ("vector", .arr (queryVector.map Json.num))]
  else
    .arr (queryVector.map Json.num)

/-- The full search request body (client.ts lines 89-102): limit,
`with_payload: true`, and the vector field. -/
def searchRequestBody (queryVector : List Rat) (limit : Nat)
    (vectorName : Option String) : Json :=
  .obj [("limit", .num limit), ("with_payload", .bool true),
        ("vector", searchVectorField queryVector vectorName)]

/-- Endpoint of `searchPoints` (client.ts line 105). -/
def searchEndpoint (collectionName : String) : String :=
  "/collections/" ++ collectionName ++ "/points/search"

/-- The named-vector hint appended by `searchPoints` (client.ts lines 124-131). -/
def vectorNameHint : String :=
  ". Hint: Try setting a vector name (e.g., \"dense\" or \"sparse\")"

/-- Error details of a failed search, the shared extraction plus the hint when
the details mention a required vector name and no name was supplied
(client.ts lines 112-131). -/
def searchErrorDetails (body : Option Json) (statusText : String)
    (vectorName : Option String) : String :=
  let details := extractErrorDetails body statusText
  if strIncludes details "requires specified vector name" && !vectorNameTruthy vectorName then
    details ++ vectorNameHint
  else
    details

/-- `QdrantHttpClient.searchPoints` (client.ts lines 83-140): POST the search
request; on a non-ok response throw with the (possibly hinted) details and the
stringified request; on an ok response return the `result` field, or `[]` when
it is absent. -/
def searchPoints (collectionName : String) (queryVector : List Rat)
    (limit : Nat) (vectorName : Option String)
    (resp : HttpResponse) : Except String (List Json) :=
  if !resp.ok then
    .error ("Failed to search points in collection " ++ squote ++ collectionName
      ++ squote ++ ": " ++ searchErrorDetails resp.body resp.statusText vectorName
      ++ ". Request: " ++ Json.stringify (searchRequestBody queryVector limit vectorName))
  else
    match resp.body with
    | none => .error "Unexpected end of JSON input"
    | some j =>
        -- `result.result || []` (client.ts line 139); the result field, when
        -- present, is an array (the model does not cover a non-array value).
        match j.getField? "result" with
        | some (.arr xs) => .ok xs
        | _ => .ok []

/-!
## MemoryService (src/server.ts, class QdrantMCPServer)

Each handler is a function from its arguments and an environment — the
configured default collection plus the outcomes of the remote calls the
handler would make — to `Except String CallToolResult` (`.error` = the handler
throws) paired with the ordered trace of network operations issued.
-/

/-- The content of a `CallToolResult`: a list of text items. -/
structure CallToolResult where
  content : List String
deriving DecidableEq

/-- A result carrying one text item. -/
def mkTextResult (s : String) : CallToolResult := ⟨[s]⟩

/-- One outbound network operation (embedding call or vector-store request). -/
inductive NetEvent where
  | embed (input : String)
  | createCollectionReq (name : String) (vectorSize : Nat)
  | upsertPointsReq (name : String) (points : List Point)
  | searchReq (name : String) (queryVector : List Rat) (limit : Nat)
      (vectorName : Option String)
  | getCollectionReq (name : String)
  | scrollReq (name : String)

/-- The collection-name resolution shared by the three handlers (server.ts
lines 193-196, 245-248, 305-308): `args.collection_name || this.defaultCollection`,
then `if (!collectionName) throw` — so an empty string counts as absent. -/
def resolveCollection (explicitName defaultName : Option String) : Option String :=
  match jsOrStr explicitName defaultName with
  | some s => if s = "" then none else some s
  | none => none

/-- Arguments of `handleStore` (server.ts lines 188-192); `metadata` is a JSON
value when supplied. -/
structure StoreArgs where
  information : String
  metadata : Option Json
  collection_name : Option String

/-- Environment of one `handleStore` run: the default collection and the
outcomes of the embedding call, the clock reads, and the two store requests. -/
structure StoreEnv where
  defaultCollection : Option String
  embedResult : Except String (List Rat)
  nowMs : Nat
  nowIso : String
  createResp : HttpResponse
  upsertResp : HttpResponse

/-- Truthiness of the optional metadata value (`if (args.metadata)`,
server.ts line 218). -/
def metadataTruthy : Option Json → Bool
  | some j => !j.falsy
  | none => false

/-- The stored payload (server.ts lines 213-220): `information`, the ISO
timestamp `stored_at`, and `metadata` when the argument is truthy. -/
def buildStorePayload (information nowIso : String) (metadata : Option Json) : Json :=
  .obj ([("information", .str information), ("stored_at", .str nowIso)]
    ++ (if metadataTruthy metadata then [("metadata", metadata.getD .null)] else []))

/-- `QdrantMCPServer.handleStore` (server.ts lines 188-238): resolve the
collection, embed, ensure the collection with the embedding length, then
upsert one point whose id is the millisecond clock and return the
confirmation text. -/
def handleStore (args : StoreArgs) (env : StoreEnv) :
    Except String CallToolResult × List NetEvent :=
  match resolveCollection args.collection_name env.defaultCollection with
  | none => (.error "Collection name is required", [])
  | some collectionName =>
    match env.embedResult with
    | .error e => (.error e, [.embed args.information])
    | .ok embedding =>
      match createCollection collectionName embedding.length env.createResp with
      | .error e =>
          (.error e, [.embed args.information,
                      .createCollectionReq collectionName embedding.length])
      | .ok () =>
        let pointId := toString env.nowMs
        let payload := buildStorePayload args.information env.nowIso args.metadata
        let point : Point := ⟨pointId, embedding, payload⟩
        let trace := [NetEvent.embed args.information,
                      .createCollectionReq collectionName embedding.length,
                      .upsertPointsReq collectionName [point]]
        match upsertPoints collectionName [point] env.upsertResp with
        | .error e => (.error e, trace)
        | .ok () =>
            (.ok (mkTextResult ("Information stored successfully in collection "
              ++ squote ++ collectionName ++ squote ++ " with ID: " ++ pointId)),
             trace)

/-- Arguments of `handleFind` (server.ts lines 240-244). -/
structure FindArgs where
  query : String
  collection_name : Option String
  vector_name : Option String

/-- Environment of one `handleFind` run. -/
structure FindEnv where
  defaultCollection : Option String
  embedResult : Except String (List Rat)
  searchResp : HttpResponse
  debugMode : Bool

/-- `result.score || 0` (server.ts line 279); a numeric score is kept, any
falsy or absent value becomes 0 (the model does not cover truthy non-numeric
scores). -/
def resultScore (r : Json) : Rat :=
  match r.getField? "score" with
  | some (.num q) => q
  | _ => 0

/-- `result.payload || \x7b\x7d` (server.ts line 280). -/
def resultPayload (r : Json) : Json :=
  match r.getField? "payload" with
  | some p => if p.falsy then .obj [] else p
  | none => .obj []

/-- `Object.keys(x).join(', ')` as used on payloads (server.ts line 286). -/
def joinedKeys (j : Json) : String :=
  match j with
  | .obj fields => String.intercalate ", " (fields.map (fun kv => kv.1))
  | _ => ""

/-- Formatting of one search result (server.ts lines 278-292): rank, score to
four decimal places, an optional debug line, and the stringified payload. -/
def formatResult (debugMode : Bool) (index : Nat) (r : Json) : String :=
  let base := "Result " ++ toString (index + 1) ++ " (Score: "
    ++ toFixed4 (resultScore r) ++ "):\n"
  let base := if debugMode then
      base ++ "Debug - Payload keys: " ++ joinedKeys (resultPayload r) ++ "\n"
    else base
  base ++ "Detail: " ++ Json.stringify (resultPayload r) ++ "\n"

/-- `results.map((result, index) => ...)` (server.ts line 278). -/
def formatResults (debugMode : Bool) (index : Nat) : List Json → List String
  | [] => []
  | r :: rest => formatResult debugMode index r :: formatResults debugMode (index + 1) rest

/-- `QdrantMCPServer.handleFind` (server.ts lines 240-300): resolve the
collection, embed the query, search with limit 5, and either report that
nothing was found or return one text item per result. -/
def handleFind (args : FindArgs) (env : FindEnv) :
    Except String CallToolResult × List NetEvent :=
  match resolveCollection args.collection_name env.defaultCollection with
  | none => (.error "Collection name is required", [])
  | some collectionName =>
    match env.embedResult with
    | .error e => (.error e, [.embed args.query])
    | .ok queryVector =>
      let trace := [NetEvent.embed args.query,
                    .searchReq collectionName queryVector 5 args.vector_name]
      match searchPoints collectionName queryVector 5 args.vector_name env.searchResp with
      | .error e => (.error e, trace)
      | .ok results =>
        if results.length = 0 then
          (.ok (mkTextResult ("No relevant information found for query: \""
            ++ args.query ++ "\"")), trace)
        else
          (.ok ⟨formatResults env.debugMode 0 results⟩, trace)

/-- Arguments of `handleDebug` (server.ts lines 302-304). -/
structure DebugArgs where
  collection_name : Option String

/-- Environment of one `handleDebug` run: the default collection and the
outcomes of the two inspection requests, each combining the fetch and its
`json()` parse (`.error` = that step threw). -/
structure DebugEnv where
  defaultCollection : Option String
  infoResult : Except String Json
  scrollResult : Except String Json

/-- Rendering of a JSON value interpolated into a template string; objects and
arrays do not occur at the interpolation sites the claims touch, so they are
rendered by their serialization. -/
def jsDisplay : Json → String
  | .null => "null"
  | .bool b => if b then "true" else "false"
  | .num q => toString q
  | .str s => s
  | j => Json.stringify j

/-- `JSON.stringify(x, null, 2)` of a possibly-absent field (server.ts line
333); an absent field renders as `undefined`.  Indentation whitespace is not
modelled. -/
def stringifyOpt : Option Json → String
  | some j => Json.stringify j
  | none => "undefined"

/-- One sampled point's section of the debug text (server.ts lines 337-341). -/
def renderSamplePoint (index : Nat) (point : Json) : String :=
  "\n--- Point " ++ toString (index + 1) ++ " (ID: "
    ++ jsDisplay ((point.getField? "id").getD .null) ++ ") ---\n"
    ++ "Payload keys: " ++ joinedKeys ((point.getField? "payload").getD (.obj []))
    ++ "\n" ++ "Payload: " ++ stringifyOpt (point.getField? "payload") ++ "\n"

/-- The sampled points list `sampleData.result?.result` (server.ts line 336),
when it is an array. -/
def scrollPoints (sampleData : Json) : Option (List Json) :=
  match (sampleData.getField? "result").bind (fun j => j.getField? "result") with
  | some (.arr points) => some points
  | _ => none

/-- Iteration over the sampled points (server.ts lines 336-342). -/
def renderSamplePoints (index : Nat) : List Json → String
  | [] => ""
  | p :: rest => renderSamplePoint index p ++ renderSamplePoints (index + 1) rest

/-- The debug text assembled inside the `try` block (server.ts lines 332-342). -/
def renderDebugInfo (collectionName : String) (info sampleData : Json) : String :=
  "Collection Info for \"" ++ collectionName ++ "\":\n"
    ++ stringifyOpt (info.getField? "result")
    ++ "\n\nSample Data (first "
    ++ toString ((scrollPoints sampleData).map List.length |>.getD 0)
    ++ " points):\n"
    ++ (match scrollPoints sampleData with
        | some points => renderSamplePoints 0 points
        | none => "")

/-- `QdrantMCPServer.handleDebug` (server.ts lines 302-362): resolve the
collection (outside the `try`), then inspect; any failure inside the `try` is
converted into a `Debug error:` text result. -/
def handleDebug (args : DebugArgs) (env : DebugEnv) :
    Except String CallToolResult × List NetEvent :=
  match resolveCollection args.collection_name env.defaultCollection with
  | none => (.error "Collection name is required", [])
  | some collectionName =>
    match env.infoResult with
    | .error e => (.ok (mkTextResult ("Debug error: " ++ e)),
                   [.getCollectionReq collectionName])
    | .ok info =>
      match env.scrollResult with
      | .error e => (.ok (mkTextResult ("Debug error: " ++ e)),
                     [.getCollectionReq collectionName, .scrollReq collectionName])
      | .ok sampleData =>
          (.ok (mkTextResult (renderDebugInfo collectionName info sampleData)),
           [.getCollectionReq collectionName, .scrollReq collectionName])

/-!
## Tool handlers (server.ts, setupToolHandlers)

Each registered tool handler rebuilds the handler arguments with
`collection_name: this.defaultCollection || args.collection_name`
(server.ts lines 87, 130, 170): the configured default comes first.
-/

/-- Argument building of the `qdrant-store` tool handler (server.ts lines
84-88). -/
def storeToolArgs (defaultCollection : Option String) (information : String)
    (metadata : Option Json) (collection_name : Option String) : StoreArgs :=
  ⟨information, metadata, jsOrStr defaultCollection collection_name⟩

/-- Argument building of the `qdrant-find` tool handler (server.ts lines
128-132). -/
def findToolArgs (defaultCollection : Option String) (query : String)
    (vector_name : Option String) (collection_name : Option String) : FindArgs :=
  ⟨query, jsOrStr defaultCollection collection_name, vector_name⟩

/-- Argument building of the `qdrant-debug` tool handler (server.ts lines
169-171). -/
def debugToolArgs (defaultCollection : Option String)
    (collection_name : Option String) : DebugArgs :=
  ⟨jsOrStr defaultCollection collection_name⟩

/-!
## Helper lemmas
-/

/-- The middle part of a three-way concatenation is contained in it. -/
theorem containsStr_middle (a t b : String) : containsStr (a ++ t ++ b) t := by
  simp only [containsStr, String.data_append]
  exact List.infix_append a.data t.data b.data

/-- Containment persists under appending on the right. -/
theorem containsStr_appendR {s t : String} (u : String)
    (h : containsStr s t) : containsStr (s ++ u) t := by
  simp only [containsStr, String.data_append]
  exact h.trans ⟨[], u.data, by simp⟩

/-- Containment persists under appending on the left. -/
theorem containsStr_appendL {s t : String} (u : String)
    (h : containsStr s t) : containsStr (u ++ s) t := by
  simp only [containsStr, String.data_append]
  exact h.trans ⟨u.data, [], by simp⟩

/-- A string contains itself. -/
theorem containsStr_self (s : String) : containsStr s s := ⟨[], [], by simp⟩

/-- A prefix of a concatenation is contained in it. -/
theorem containsStr_left (s u : String) : containsStr (s ++ u) s :=
  containsStr_appendR u (containsStr_self s)

/-- A suffix of a concatenation is contained in it. -/
theorem containsStr_right (s u : String) : containsStr (u ++ s) s :=
  containsStr_appendL u (containsStr_self s)

/-- `formatResults` yields one text item per search result. -/
theorem formatResults_length (dm : Bool) :
    ∀ (rs : List Json) (k : Nat), (formatResults dm k rs).length = rs.length
  | [], _ => rfl
  | _ :: rest, k => by
      simp [formatResults, formatResults_length dm rest (k + 1)]

/-- The `i`-th item of `formatResults` is the formatting of the `i`-th result
at rank `k + i`. -/
theorem formatResults_getD (dm : Bool) :
    ∀ (rs : List Json) (k i : Nat), i < rs.length →
      (formatResults dm k rs).getD i "" = formatResult dm (k + i) (rs.getD i .null)
  | [], _, i, hi => by simp at hi
  | r :: rest, k, 0, _ => by simp [formatResults]
  | r :: rest, k, i + 1, hi => by
      have := formatResults_getD dm rest (k + 1) i (by simpa using hi)
      simpa [formatResults, Nat.add_assoc, Nat.add_comm 1 i] using this

/-- The `makeRequest` arguments of a `searchPoints` call (client.ts lines
104-110): endpoint, method, and request body, for either vector shape. -/
def searchRequest (collectionName : String) (queryVector : List Rat)
    (limit : Nat) (vectorName : Option String) : String × String × Json :=
  (searchEndpoint collectionName, "POST", searchRequestBody queryVector limit vectorName)

/-!
## Claims
-/

/-- C1: `createCollection` returns normally when the remote response has a
success status or the conflict (409) status; on every other non-success status
it throws an error containing the remote status text; hence two consecutive
calls, each answered with success or conflict, both return normally. -/
theorem createCollection_conflict_is_success
    (name : String) (dim : Nat) (resp r1 r2 : HttpResponse) :
    (resp.ok = true ∨ resp.status = 409 → createCollection name dim resp = .ok ())
    ∧ (resp.ok = false → resp.status ≠ 409 →
        ∃ msg, createCollection name dim resp = .error msg
          ∧ containsStr msg resp.statusText)
    ∧ ((r1.ok = true ∨ r1.status = 409) → (r2.ok = true ∨ r2.status = 409) →
        createCollection name dim r1 = .ok () ∧ createCollection name dim r2 = .ok ()) := by
  have hok : ∀ r : HttpResponse, r.ok = true ∨ r.status = 409 →
      createCollection name dim r = .ok () := by
    intro r hr
    rcases hr with h | h <;> simp [createCollection, h]
  refine ⟨hok resp, ?_, fun h1 h2 => ⟨hok r1 h1, hok r2 h2⟩⟩
  intro h1 h2
  have hbne : (resp.status != 409) = true := by simp [h2]
  refine ⟨"Failed to create collection: " ++ resp.statusText, ?_,
    containsStr_right _ _⟩
  simp [createCollection, h1, hbne]

/-- C1 witness: a success response, a conflict response and a 500 response at
concrete inputs. -/
theorem createCollection_conflict_is_success_witness :
    createCollection "memories" 1536 ⟨true, 200, "OK", none⟩ = .ok ()
    ∧ (∃ msg, createCollection "memories" 1536 ⟨false, 500, "Internal Server Error", none⟩
        = .error msg ∧ containsStr msg "Internal Server Error")
    ∧ (createCollection "memories" 1536 ⟨false, 409, "Conflict", none⟩ = .ok ()
        ∧ createCollection "memories" 1536 ⟨false, 409, "Conflict", none⟩ = .ok ()) := by
  refine ⟨?_, ?_, ?_⟩
  · exact (createCollection_conflict_is_success "memories" 1536
      ⟨true, 200, "OK", none⟩ ⟨true, 200, "OK", none⟩ ⟨true, 200, "OK", none⟩).1
      (Or.inl rfl)
  · exact (createCollection_conflict_is_success "memories" 1536
      ⟨false, 500, "Internal Server Error", none⟩ ⟨true, 200, "OK", none⟩
      ⟨true, 200, "OK", none⟩).2.1 rfl (by decide)
  · exact (createCollection_conflict_is_success "memories" 1536
      ⟨true, 200, "OK", none⟩ ⟨false, 409, "Conflict", none⟩
      ⟨false, 409, "Conflict", none⟩).2.2 (Or.inr rfl) (Or.inr rfl)

/-- C5: on a success response whose body has an absent `result` field or an
empty one, `searchPoints` returns `[]` rather than throwing. -/
theorem searchPoints_empty_results
    (c : String) (qv : List Rat) (limit : Nat) (vn : Option String)
    (resp : HttpResponse) (j : Json)
    (hok : resp.ok = true) (hbody : resp.body = some j)
    (h : j.getField? "result" = none ∨ j.getField? "result" = some (.arr [])) :
    searchPoints c qv limit vn resp = .ok [] := by
  rcases h with h | h <;> simp [searchPoints, hok, hbody, h]

/-- C5 witness: a body with no `result` field and a body with an empty one. -/
theorem searchPoints_empty_results_witness :
    searchPoints "memories" [1/2] 5 none ⟨true, 200, "OK", some (.obj [])⟩ = .ok []
    ∧ searchPoints "memories" [1/2] 5 none
        ⟨true, 200, "OK", some (.obj [("result", .arr [])])⟩ = .ok [] :=
  ⟨searchPoints_empty_results "memories" [1/2] 5 none _ (.obj []) rfl rfl (Or.inl rfl),
   searchPoints_empty_results "memories" [1/2] 5 none _ (.obj [("result", .arr [])])
     rfl rfl (Or.inr rfl)⟩

/-- C9: without a vector name the search request body carries the plain
query-vector array; with one it carries the name-vector object; both requests
go to the search endpoint of the collection. -/
theorem searchRequest_vector_shape
    (c : String) (qv : List Rat) (limit : Nat) (n : String) (hn : n ≠ "") :
    (searchRequest c qv limit none).2.2
      = .obj [("limit", .num limit), ("with_payload", .bool true),
              ("vector", .arr (qv.map Json.num))]
    ∧ (searchRequest c qv limit (some n)).2.2
      = .obj [("limit", .num limit), ("with_payload", .bool true),
              ("vector", .obj [("name", .str n), ("vector", .arr (qv.map Json.num))])]
    ∧ (searchRequest c qv limit none).1 = (searchRequest c qv limit (some n)).1
    ∧ (searchRequest c qv limit none).1 = searchEndpoint c := by
  refine ⟨?_, ?_, rfl, rfl⟩
  · simp [searchRequest, searchRequestBody, searchVectorField, vectorNameTruthy]
  · simp [searchRequest, searchRequestBody, searchVectorField, vectorNameTruthy, hn]

/-- C9 witness: the two request shapes at a concrete vector and name. -/
theorem searchRequest_vector_shape_witness :
    (searchRequest "memories" [1/2, 1/4] 5 none).2.2
      = .obj [("limit", .num 5), ("with_payload", .bool true),
              ("vector", .arr [.num (1/2), .num (1/4)])]
    ∧ (searchRequest "memories" [1/2, 1/4] 5 (some "dense")).2.2
      = .obj [("limit", .num 5), ("with_payload", .bool true),
              ("vector", .obj [("name", .str "dense"),
                               ("vector", .arr [.num (1/2), .num (1/4)])])]
    ∧ (searchRequest "memories" [1/2, 1/4] 5 none).1
      = (searchRequest "memories" [1/2, 1/4] 5 (some "dense")).1
    ∧ (searchRequest "memories" [1/2, 1/4] 5 none).1 = searchEndpoint "memories" := by
  have h := searchRequest_vector_shape "memories" [1/2, 1/4] 5 "dense" (by decide)
  exact ⟨h.1, h.2.1, h.2.2.1, h.2.2.2⟩

/-- C10: when a default collection is configured, the tool handlers pass the
default to the operation even when the caller supplies an explicit
collection_name — the default takes precedence. -/
theorem toolHandlers_default_overrides
    (d information query : String) (metadata : Option Json)
    (vn explicitName : Option String) (hd : d ≠ "") :
    (storeToolArgs (some d) information metadata explicitName).collection_name = some d
    ∧ (findToolArgs (some d) query vn explicitName).collection_name = some d
    ∧ (debugToolArgs (some d) explicitName).collection_name = some d := by
  refine ⟨?_, ?_, ?_⟩ <;> simp [storeToolArgs, findToolArgs, debugToolArgs, jsOrStr, hd]

/-- C10 witness: a configured default "memories" wins over an explicit
"caller-choice" in all three tools. -/
theorem toolHandlers_default_overrides_witness :
    (storeToolArgs (some "memories") "info" none (some "caller-choice")).collection_name
      = some "memories"
    ∧ (findToolArgs (some "memories") "query" (some "dense")
        (some "caller-choice")).collection_name = some "memories"
    ∧ (debugToolArgs (some "memories") (some "caller-choice")).collection_name
      = some "memories" :=
  toolHandlers_default_overrides "memories" "info" "query" none (some "dense")
    (some "caller-choice") (by decide)

/-- C2 counterexample: with neither an explicit collection name nor a
configured default, the store handler fails with the message
"Collection name is required" (capital C), not the "collection name is
required" stated by the claim. -/
theorem handleStore_missing_name_message :
    (handleStore ⟨"info", none, none⟩
        ⟨none, .ok [], 0, "", ⟨true, 200, "OK", none⟩, ⟨true, 200, "OK", none⟩⟩).1
      = .error "Collection name is required"
    ∧ "Collection name is required" ≠ "collection name is required" :=
  ⟨rfl, by decide⟩

/-- C2 (amended): for store, find and debug the effective collection name is
the explicit argument when present and non-empty, else the configured default;
when neither resolves, the handler fails with the ConfigurationError message
"Collection name is required" and issues no network operation (no embedding
and no vector-store request). -/
theorem collection_resolution_precedence
    (sargs : StoreArgs) (senv : StoreEnv) (fargs : FindArgs) (fenv : FindEnv)
    (dargs : DebugArgs) (denv : DebugEnv) (s : String) (d : Option String) :
    (s ≠ "" → resolveCollection (some s) d = some s)
    ∧ (s ≠ "" → resolveCollection none (some s) = some s)
    ∧ resolveCollection none none = none
    ∧ (resolveCollection sargs.collection_name senv.defaultCollection = none →
        handleStore sargs senv = (.error "Collection name is required", []))
    ∧ (resolveCollection fargs.collection_name fenv.defaultCollection = none →
        handleFind fargs fenv = (.error "Collection name is required", []))
    ∧ (resolveCollection dargs.collection_name denv.defaultCollection = none →
        handleDebug dargs denv = (.error "Collection name is required", [])) := by
  refine ⟨?_, ?_, rfl, ?_, ?_, ?_⟩
  · intro hs; simp [resolveCollection, jsOrStr, hs]
  · intro hs; simp [resolveCollection, jsOrStr, hs]
  · intro h; simp [handleStore, h]
  · intro h; simp [handleFind, h]
  · intro h; simp [handleDebug, h]

/-- C2 witness: explicit name wins, default fills in, and all three handlers
fail without network traffic at a concrete nameless invocation. -/
theorem collection_resolution_precedence_witness :
    resolveCollection (some "explicit") (some "default") = some "explicit"
    ∧ resolveCollection none (some "default") = some "default"
    ∧ resolveCollection none none = none
    ∧ handleStore ⟨"info", none, none⟩
        ⟨none, .ok [], 0, "", ⟨true, 200, "OK", none⟩, ⟨true, 200, "OK", none⟩⟩
        = (.error "Collection name is required", [])
    ∧ handleFind ⟨"query", none, some "dense"⟩
        ⟨none, .ok [], ⟨true, 200, "OK", none⟩, false⟩
        = (.error "Collection name is required", [])
    ∧ handleDebug ⟨none⟩ ⟨none, .ok .null, .ok .null⟩
        = (.error "Collection name is required", []) := by
  have h := collection_resolution_precedence
    ⟨"info", none, none⟩
    ⟨none, .ok [], 0, "", ⟨true, 200, "OK", none⟩, ⟨true, 200, "OK", none⟩⟩
    ⟨"query", none, some "dense"⟩
    ⟨none, .ok [], ⟨true, 200, "OK", none⟩, false⟩
    ⟨none⟩ ⟨none, .ok .null, .ok .null⟩ "explicit" (some "default")
  have h2 := collection_resolution_precedence
    ⟨"info", none, none⟩
    ⟨none, .ok [], 0, "", ⟨true, 200, "OK", none⟩, ⟨true, 200, "OK", none⟩⟩
    ⟨"query", none, some "dense"⟩
    ⟨none, .ok [], ⟨true, 200, "OK", none⟩, false⟩
    ⟨none⟩ ⟨none, .ok .null, .ok .null⟩ "default" (some "default")
  exact ⟨h.1 (by decide), h2.2.1 (by decide), h.2.2.1,
    h.2.2.2.1 rfl, h.2.2.2.2.1 rfl, h.2.2.2.2.2 rfl⟩

/-- C3: a successful store embeds the information, ensures the collection with
the embedding length, then upserts exactly one point whose payload carries the
information, the `stored_at` timestamp, and the metadata exactly when supplied;
the confirmation text contains the collection name and the generated id, and
the collection-creation request precedes the point write. -/
theorem handleStore_success_behavior
    (args : StoreArgs) (env : StoreEnv) (c : String) (emb : List Rat)
    (hres : resolveCollection args.collection_name env.defaultCollection = some c)
    (hemb : env.embedResult = .ok emb)
    (hcreate : env.createResp.ok = true ∨ env.createResp.status = 409)
    (hupsert : env.upsertResp.ok = true)
    (hmeta : ∀ m, args.metadata = some m → m.falsy = false) :
    handleStore args env =
      (.ok (mkTextResult ("Information stored successfully in collection "
          ++ squote ++ c ++ squote ++ " with ID: " ++ toString env.nowMs)),
       [.embed args.information,
        .createCollectionReq c emb.length,
        .upsertPointsReq c
          [⟨toString env.nowMs, emb,
            buildStorePayload args.information env.nowIso args.metadata⟩]])
    ∧ (buildStorePayload args.information env.nowIso args.metadata).getField?
        "information" = some (.str args.information)
    ∧ (buildStorePayload args.information env.nowIso args.metadata).getField?
        "stored_at" = some (.str env.nowIso)
    ∧ (args.metadata = none →
        (buildStorePayload args.information env.nowIso args.metadata).getField?
          "metadata" = none)
    ∧ (∀ m, args.metadata = some m →
        (buildStorePayload args.information env.nowIso args.metadata).getField?
          "metadata" = some m)
    ∧ containsStr ("Information stored successfully in collection "
        ++ squote ++ c ++ squote ++ " with ID: " ++ toString env.nowMs) c
    ∧ containsStr ("Information stored successfully in collection "
        ++ squote ++ c ++ squote ++ " with ID: " ++ toString env.nowMs)
        (toString env.nowMs) := by
  have hcc : createCollection c emb.length env.createResp = .ok () := by
    rcases hcreate with h | h <;> simp [createCollection, h]
  have hup : ∀ pts, upsertPoints c pts env.upsertResp = .ok () := by
    intro pts; simp [upsertPoints, hupsert]
  refine ⟨?_, ?_, ?_, ?_, ?_, ?_, ?_⟩
  · simp [handleStore, hres, hemb, hcc, hup]
  · rcases hm : args.metadata with _ | m
    · simp only [buildStorePayload, metadataTruthy, hm]; rfl
    · have hf : m.falsy = false := hmeta m hm
      simp only [buildStorePayload, metadataTruthy, hm, hf]; rfl
  · rcases hm : args.metadata with _ | m
    · simp only [buildStorePayload, metadataTruthy, hm]; rfl
    · have hf : m.falsy = false := hmeta m hm
      simp only [buildStorePayload, metadataTruthy, hm, hf]; rfl
  · intro hm
    simp only [buildStorePayload, metadataTruthy, hm]; rfl
  · intro m hm
    have hf : m.falsy = false := hmeta m hm
    simp only [buildStorePayload, metadataTruthy, hm, hf]; rfl
  · exact containsStr_appendR _ (containsStr_appendR _
      (containsStr_middle ("Information stored successfully in collection "
        ++ squote) c squote))
  · exact containsStr_right _ _

/-- C3 witness: a concrete store with metadata, evaluated end to end. -/
theorem handleStore_success_behavior_witness :
    handleStore ⟨"hello world", some (.obj [("topic", .str "greeting")]), some "memories"⟩
      ⟨none, .ok [1/2, 1/4, 1/8], 1700000000000, "2023-11-14T22:13:20.000Z",
        ⟨true, 200, "OK", none⟩, ⟨true, 200, "OK", none⟩⟩ =
      (.ok (mkTextResult ("Information stored successfully in collection "
          ++ squote ++ "memories" ++ squote ++ " with ID: "
          ++ toString (1700000000000 : Nat))),
       [.embed "hello world",
        .createCollectionReq "memories" ([(1:Rat)/2, 1/4, 1/8].length),
        .upsertPointsReq "memories"
          [⟨toString (1700000000000 : Nat), [1/2, 1/4, 1/8],
            buildStorePayload "hello world" "2023-11-14T22:13:20.000Z"
              (some (.obj [("topic", .str "greeting")]))⟩]])
    ∧ (buildStorePayload "hello world" "2023-11-14T22:13:20.000Z"
        (some (.obj [("topic", .str "greeting")]))).getField? "information"
        = some (.str "hello world")
    ∧ (buildStorePayload "hello world" "2023-11-14T22:13:20.000Z"
        (some (.obj [("topic", .str "greeting")]))).getField? "stored_at"
        = some (.str "2023-11-14T22:13:20.000Z")
    ∧ (buildStorePayload "hello world" "2023-11-14T22:13:20.000Z"
        (some (.obj [("topic", .str "greeting")]))).getField? "metadata"
        = some (.obj [("topic", .str "greeting")]) := by
  have h := handleStore_success_behavior
    ⟨"hello world", some (.obj [("topic", .str "greeting")]), some "memories"⟩
    ⟨none, .ok [1/2, 1/4, 1/8], 1700000000000, "2023-11-14T22:13:20.000Z",
      ⟨true, 200, "OK", none⟩, ⟨true, 200, "OK", none⟩⟩
    "memories" [1/2, 1/4, 1/8] rfl rfl (Or.inl rfl) rfl
    (by intro m hm; cases hm; rfl)
  exact ⟨h.1, h.2.1, h.2.2.1, h.2.2.2.2.1 _ rfl⟩

/-- Each formatted result contains its rank marker, its 4-decimal score and
its serialized payload, with or without the debug line. -/
theorem formatResult_contains (dm : Bool) (idx : Nat) (r : Json) :
    containsStr (formatResult dm idx r) ("Result " ++ toString (idx + 1) ++ " (Score: ")
    ∧ containsStr (formatResult dm idx r) (toFixed4 (resultScore r))
    ∧ containsStr (formatResult dm idx r) (Json.stringify (resultPayload r)) := by
  have hrank : containsStr ("Result " ++ toString (idx + 1) ++ " (Score: "
      ++ toFixed4 (resultScore r) ++ "):\n")
      ("Result " ++ toString (idx + 1) ++ " (Score: ") :=
    containsStr_appendR _ (containsStr_left _ _)
  have hscore : containsStr ("Result " ++ toString (idx + 1) ++ " (Score: "
      ++ toFixed4 (resultScore r) ++ "):\n") (toFixed4 (resultScore r)) :=
    containsStr_appendR _ (containsStr_right _ _)
  cases dm <;> refine ⟨?_, ?_, ?_⟩ <;> simp only [formatResult, if_true, if_false]
  · exact containsStr_appendR _ (containsStr_appendR _ (containsStr_appendR _ hrank))
  · exact containsStr_appendR _ (containsStr_appendR _ (containsStr_appendR _ hscore))
  · exact containsStr_appendR _ (containsStr_right _ _)
  · exact containsStr_appendR _ (containsStr_appendR _ (containsStr_appendR _
      (containsStr_appendR _ (containsStr_appendR _ (containsStr_appendR _ hrank)))))
  · exact containsStr_appendR _ (containsStr_appendR _ (containsStr_appendR _
      (containsStr_appendR _ (containsStr_appendR _ (containsStr_appendR _ hscore)))))
  · exact containsStr_appendR _ (containsStr_right _ _)

/-- C4: a find issues its search with limit 5; with zero results it returns
exactly one message stating that nothing relevant was found for the query;
otherwise it returns one message per result, each containing the 1-based rank,
the score to four decimal places and the serialized payload. -/
theorem handleFind_results_formatting
    (args : FindArgs) (env : FindEnv) (c : String) (qv : List Rat)
    (results : List Json)
    (hres : resolveCollection args.collection_name env.defaultCollection = some c)
    (hemb : env.embedResult = .ok qv)
    (hsearch : searchPoints c qv 5 args.vector_name env.searchResp = .ok results) :
    (handleFind args env).2 = [.embed args.query, .searchReq c qv 5 args.vector_name]
    ∧ (results = [] →
        (handleFind args env).1 = .ok (mkTextResult
          ("No relevant information found for query: \"" ++ args.query ++ "\""))
        ∧ containsStr ("No relevant information found for query: \""
            ++ args.query ++ "\"") args.query)
    ∧ (results ≠ [] →
        (handleFind args env).1 = .ok ⟨formatResults env.debugMode 0 results⟩
        ∧ (formatResults env.debugMode 0 results).length = results.length
        ∧ ∀ i, i < results.length →
            containsStr ((formatResults env.debugMode 0 results).getD i "")
              ("Result " ++ toString (i + 1) ++ " (Score: ")
            ∧ containsStr ((formatResults env.debugMode 0 results).getD i "")
              (toFixed4 (resultScore (results.getD i .null)))
            ∧ containsStr ((formatResults env.debugMode 0 results).getD i "")
              (Json.stringify (resultPayload (results.getD i .null)))) := by
  refine ⟨?_, ?_, ?_⟩
  · by_cases hr : results.length = 0 <;> simp [handleFind, hres, hemb, hsearch, hr]
  · intro hempty
    subst hempty
    refine ⟨by simp [handleFind, hres, hemb, hsearch], ?_⟩
    exact containsStr_appendR _ (containsStr_right _ _)
  · intro hne
    have hlen0 : ¬ results.length = 0 := by simpa using hne
    refine ⟨by simp [handleFind, hres, hemb, hsearch, hlen0],
      formatResults_length _ _ _, ?_⟩
    intro i hi
    rw [formatResults_getD env.debugMode results 0 i hi]
    simpa using formatResult_contains env.debugMode (0 + i) (results.getD i .null)

/-- C4 witness: an empty search and a one-result search at concrete inputs. -/
theorem handleFind_results_formatting_witness :
    (handleFind ⟨"lost topic", some "memories", some "dense"⟩
        ⟨none, .ok [1/2], ⟨true, 200, "OK", some (.obj [("result", .arr [])])⟩,
          false⟩).1
      = .ok (mkTextResult
          ("No relevant information found for query: \"" ++ "lost topic" ++ "\""))
    ∧ (handleFind ⟨"hi", some "memories", none⟩
        ⟨none, .ok [1/2],
          ⟨true, 200, "OK", some (.obj [("result", .arr
            [.obj [("id", .str "1"), ("score", .num (95/100)),
                   ("payload", .obj [("information", .str "hi")])]])])⟩,
          false⟩).1
      = .ok ⟨formatResults false 0
          [.obj [("id", .str "1"), ("score", .num (95/100)),
                 ("payload", .obj [("information", .str "hi")])]]⟩
    ∧ (formatResults false 0
          [.obj [("id", .str "1"), ("score", .num (95/100)),
                 ("payload", .obj [("information", .str "hi")])]]).length
      = [Json.obj [("id", .str "1"), ("score", .num (95/100)),
                   ("payload", .obj [("information", .str "hi")])]].length
    ∧ containsStr ((formatResults false 0
          [.obj [("id", .str "1"), ("score", .num (95/100)),
                 ("payload", .obj [("information", .str "hi")])]]).getD 0 "")
        ("Result " ++ toString (0 + 1) ++ " (Score: ")
    ∧ containsStr ((formatResults false 0
          [.obj [("id", .str "1"), ("score", .num (95/100)),
                 ("payload", .obj [("information", .str "hi")])]]).getD 0 "")
        (toFixed4 (resultScore ([Json.obj [("id", .str "1"), ("score", .num (95/100)),
                 ("payload", .obj [("information", .str "hi")])]].getD 0 .null)))
    ∧ containsStr ((formatResults false 0
          [.obj [("id", .str "1"), ("score", .num (95/100)),
                 ("payload", .obj [("information", .str "hi")])]]).getD 0 "")
        (Json.stringify (resultPayload
          ([Json.obj [("id", .str "1"), ("score", .num (95/100)),
                 ("payload", .obj [("information", .str "hi")])]].getD 0 .null))) := by
  have h1 := handleFind_results_formatting
    ⟨"lost topic", some "memories", some "dense"⟩
    ⟨none, .ok [1/2], ⟨true, 200, "OK", some (.obj [("result", .arr [])])⟩, false⟩
    "memories" [1/2] [] rfl rfl rfl
  have h2 := handleFind_results_formatting
    ⟨"hi", some "memories", none⟩
    ⟨none, .ok [1/2],
      ⟨true, 200, "OK", some (.obj [("result", .arr
        [.obj [("id", .str "1"), ("score", .num (95/100)),
               ("payload", .obj [("information", .str "hi")])]])])⟩,
      false⟩
    "memories" [1/2]
    [.obj [("id", .str "1"), ("score", .num (95/100)),
           ("payload", .obj [("information", .str "hi")])]] rfl rfl rfl
  have hone := h2.2.2 (List.cons_ne_nil _ _)
  have hitem := hone.2.2 0 (by decide)
  exact ⟨(h1.2.1 rfl).1, hone.1, hone.2.1, hitem.1, hitem.2.1, hitem.2.2⟩

/-- C6: a failing upsert or search extracts its message from the response in
priority order — nested `error.message`, else nested `status.error`, else the
serialized error body — and falls back to the transport status text when the
body cannot be parsed; the raised messages embed the extracted details. -/
theorem errorMessage_extraction_priority
    (st s c : String) (j : Json) (pts : List Point)
    (qv : List Rat) (limit : Nat) (vn : Option String) (resp : HttpResponse) :
    extractErrorDetails none st = st
    ∧ (nestedStrField j "error" "message" = some s → s ≠ "" →
        extractErrorDetails (some j) st = s)
    ∧ (nestedStrField j "error" "message" = none →
        nestedStrField j "status" "error" = some s → s ≠ "" →
        extractErrorDetails (some j) st = s)
    ∧ (nestedStrField j "error" "message" = none →
        nestedStrField j "status" "error" = none →
        extractErrorDetails (some j) st = Json.stringify j)
    ∧ (resp.ok = false →
        upsertPoints c pts resp = .error ("Failed to upsert points in collection "
          ++ squote ++ c ++ squote ++ ": "
          ++ extractErrorDetails resp.body resp.statusText))
    ∧ (resp.ok = false →
        ∃ msg, searchPoints c qv limit vn resp = .error msg
          ∧ containsStr msg (extractErrorDetails resp.body resp.statusText)) := by
  refine ⟨rfl, ?_, ?_, ?_, ?_, ?_⟩
  · intro h hs; simp [extractErrorDetails, jsOrStrD, h, hs]
  · intro h1 h2 hs; simp [extractErrorDetails, jsOrStrD, h1, h2, hs]
  · intro h1 h2; simp [extractErrorDetails, jsOrStrD, h1, h2]
  · intro hok; simp [upsertPoints, hok]
  · intro hok
    refine ⟨"Failed to search points in collection " ++ squote ++ c ++ squote
      ++ ": " ++ searchErrorDetails resp.body resp.statusText vn
      ++ ". Request: " ++ Json.stringify (searchRequestBody qv limit vn),
      by simp [searchPoints, hok], ?_⟩
    have hsed : containsStr (searchErrorDetails resp.body resp.statusText vn)
        (extractErrorDetails resp.body resp.statusText) := by
      unfold searchErrorDetails
      rcases h : (strIncludes (extractErrorDetails resp.body resp.statusText)
          "requires specified vector name" && !vectorNameTruthy vn) with _ | _
      · simpa [h] using containsStr_self _
      · simpa [h] using containsStr_left _ vectorNameHint
    exact containsStr_appendR _ (containsStr_appendR _ (containsStr_appendL _ hsed))

/-- C6 witness: the four extraction priorities and both raised messages at
concrete responses. -/
theorem errorMessage_extraction_priority_witness :
    extractErrorDetails none "Internal Server Error" = "Internal Server Error"
    ∧ extractErrorDetails
        (some (.obj [("error", .obj [("message", .str "boom")])])) "ISE" = "boom"
    ∧ extractErrorDetails
        (some (.obj [("status", .obj [("error", .str "bad vector")])])) "ISE"
        = "bad vector"
    ∧ extractErrorDetails (some (.obj [("error", .str "already exists")])) "ISE"
        = Json.stringify (.obj [("error", .str "already exists")])
    ∧ upsertPoints "memories" [] ⟨false, 500, "ISE",
        some (.obj [("error", .obj [("message", .str "boom")])])⟩
        = .error ("Failed to upsert points in collection "
          ++ squote ++ "memories" ++ squote ++ ": "
          ++ extractErrorDetails
              (some (.obj [("error", .obj [("message", .str "boom")])])) "ISE")
    ∧ (∃ msg, searchPoints "memories" [1/2] 5 none ⟨false, 500, "ISE",
          some (.obj [("error", .obj [("message", .str "boom")])])⟩ = .error msg
        ∧ containsStr msg (extractErrorDetails
            (some (.obj [("error", .obj [("message", .str "boom")])])) "ISE")) := by
  have h1 := errorMessage_extraction_priority "Internal Server Error" "x" "memories"
    (.obj []) [] [1/2] 5 none ⟨false, 500, "ISE", none⟩
  have h2 := errorMessage_extraction_priority "ISE" "boom" "memories"
    (.obj [("error", .obj [("message", .str "boom")])]) [] [1/2] 5 none
    ⟨false, 500, "ISE", some (.obj [("error", .obj [("message", .str "boom")])])⟩
  have h3 := errorMessage_extraction_priority "ISE" "bad vector" "memories"
    (.obj [("status", .obj [("error", .str "bad vector")])]) [] [1/2] 5 none
    ⟨false, 500, "ISE", none⟩
  have h4 := errorMessage_extraction_priority "ISE" "x" "memories"
    (.obj [("error", .str "already exists")]) [] [1/2] 5 none
    ⟨false, 500, "ISE", none⟩
  exact ⟨h1.1, h2.2.1 rfl (by decide), h3.2.2.1 rfl rfl (by decide),
    h4.2.2.2.1 rfl rfl, h2.2.2.2.2.1 rfl, h2.2.2.2.2.2 rfl⟩

/-- C7: when a failed search's extracted error text mentions the
named-vector requirement and no vector name was supplied, the raised message
contains the hint naming "dense" and "sparse"; when a vector name was supplied
or the text does not mention it, the message is exactly the unhinted one. -/
theorem searchPoints_hint_behavior
    (c : String) (qv : List Rat) (limit : Nat) (resp : HttpResponse)
    (vn : Option String) (hok : resp.ok = false) :
    (strIncludes (extractErrorDetails resp.body resp.statusText)
        "requires specified vector name" = true →
      ∃ msg, searchPoints c qv limit none resp = .error msg
        ∧ containsStr msg "dense" ∧ containsStr msg "sparse")
    ∧ (vectorNameTruthy vn = true →
        searchPoints c qv limit vn resp = .error
          ("Failed to search points in collection " ++ squote ++ c ++ squote
            ++ ": " ++ extractErrorDetails resp.body resp.statusText
            ++ ". Request: " ++ Json.stringify (searchRequestBody qv limit vn)))
    ∧ (strIncludes (extractErrorDetails resp.body resp.statusText)
        "requires specified vector name" = false →
        searchPoints c qv limit vn resp = .error
          ("Failed to search points in collection " ++ squote ++ c ++ squote
            ++ ": " ++ extractErrorDetails resp.body resp.statusText
            ++ ". Request: " ++ Json.stringify (searchRequestBody qv limit vn))) := by
  refine ⟨?_, ?_, ?_⟩
  · intro h
    refine ⟨"Failed to search points in collection " ++ squote ++ c ++ squote
      ++ ": " ++ searchErrorDetails resp.body resp.statusText none
      ++ ". Request: " ++ Json.stringify (searchRequestBody qv limit none),
      by simp [searchPoints, hok], ?_, ?_⟩
    all_goals
      have hsed : searchErrorDetails resp.body resp.statusText none
          = extractErrorDetails resp.body resp.statusText ++ vectorNameHint := by
        simp [searchErrorDetails, h, vectorNameTruthy]
      rw [hsed]
    · exact containsStr_appendR _ (containsStr_appendR _ (containsStr_appendL _
        (containsStr_appendL _ (by decide))))
    · exact containsStr_appendR _ (containsStr_appendR _ (containsStr_appendL _
        (containsStr_appendL _ (by decide))))
  · intro h
    have hsed : searchErrorDetails resp.body resp.statusText vn
        = extractErrorDetails resp.body resp.statusText := by
      simp [searchErrorDetails, h]
    simp [searchPoints, hok, hsed]
  · intro h
    have hsed : searchErrorDetails resp.body resp.statusText vn
        = extractErrorDetails resp.body resp.statusText := by
      simp [searchErrorDetails, h]
    simp [searchPoints, hok, hsed]

/-- C7 witness: a named-vector error with no supplied name gets the hint; the
same error with a supplied name, and an unrelated error, raise the plain
message. -/
theorem searchPoints_hint_behavior_witness :
    (∃ msg, searchPoints "memories" [1/2] 5 none ⟨false, 400, "Bad Request",
        some (.obj [("status", .obj [("error",
          .str "Wrong input: requires specified vector name")])])⟩ = .error msg
      ∧ containsStr msg "dense" ∧ containsStr msg "sparse")
    ∧ searchPoints "memories" [1/2] 5 (some "dense") ⟨false, 400, "Bad Request",
        some (.obj [("status", .obj [("error",
          .str "Wrong input: requires specified vector name")])])⟩
      = .error ("Failed to search points in collection " ++ squote ++ "memories"
          ++ squote ++ ": " ++ extractErrorDetails
            (some (.obj [("status", .obj [("error",
              .str "Wrong input: requires specified vector name")])]))
            "Bad Request"
          ++ ". Request: "
          ++ Json.stringify (searchRequestBody [1/2] 5 (some "dense")))
    ∧ searchPoints "memories" [1/2] 5 none ⟨false, 500, "Internal Server Error",
        none⟩
      = .error ("Failed to search points in collection " ++ squote ++ "memories"
          ++ squote ++ ": " ++ extractErrorDetails none "Internal Server Error"
          ++ ". Request: " ++ Json.stringify (searchRequestBody [1/2] 5 none)) := by
  have h1 := searchPoints_hint_behavior "memories" [1/2] 5 ⟨false, 400, "Bad Request",
    some (.obj [("status", .obj [("error",
      .str "Wrong input: requires specified vector name")])])⟩ (some "dense") rfl
  have h2 := searchPoints_hint_behavior "memories" [1/2] 5
    ⟨false, 500, "Internal Server Error", none⟩ none rfl
  exact ⟨h1.1 (by decide), h1.2.1 rfl, h2.2.2 (by decide)⟩

/-- C8 counterexample: a debug invocation with no explicit collection name and
no configured default raises the configuration error to its caller, so
handleDebug is not raise-free. -/
theorem handleDebug_raises_on_missing_name :
    (handleDebug ⟨none⟩ ⟨none, .ok .null, .ok .null⟩).1
      = .error "Collection name is required" := rfl

/-- C8 (amended): every failure during inspection is caught and converted into
a "Debug error:" diagnostic text result, so once the collection name resolves
handleDebug never raises; the only error handleDebug itself raises is the
missing-collection-name configuration error, thrown before inspection begins
(with no inspection request issued). -/
theorem handleDebug_catches_inspection_failures
    (args : DebugArgs) (env : DebugEnv) (c : String) :
    (resolveCollection args.collection_name env.defaultCollection = some c →
      (∃ r, (handleDebug args env).1 = .ok r)
      ∧ (∀ e, env.infoResult = .error e →
          (handleDebug args env).1 = .ok (mkTextResult ("Debug error: " ++ e)))
      ∧ (∀ info e, env.infoResult = .ok info → env.scrollResult = .error e →
          (handleDebug args env).1 = .ok (mkTextResult ("Debug error: " ++ e))))
    ∧ (resolveCollection args.collection_name env.defaultCollection = none →
        handleDebug args env = (.error "Collection name is required", [])) := by
  constructor
  · intro hres
    refine ⟨?_, ?_, ?_⟩
    · rcases hinfo : env.infoResult with e | info
      · exact ⟨mkTextResult ("Debug error: " ++ e),
          by simp [handleDebug, hres, hinfo]⟩
      · rcases hscroll : env.scrollResult with e | sd
        · exact ⟨mkTextResult ("Debug error: " ++ e),
            by simp [handleDebug, hres, hinfo, hscroll]⟩
        · exact ⟨mkTextResult (renderDebugInfo c info sd),
            by simp [handleDebug, hres, hinfo, hscroll]⟩
    · intro e he; simp [handleDebug, hres, he]
    · intro info e hi hs; simp [handleDebug, hres, hi, hs]
  · intro h; simp [handleDebug, h]

/-- C8 witness: a failing metadata fetch and a failing scroll both come back
as ok diagnostic texts; the nameless invocation fails before inspection. -/
theorem handleDebug_catches_inspection_failures_witness :
    (handleDebug ⟨some "memories"⟩ ⟨none, .error "fetch failed", .ok .null⟩).1
      = .ok (mkTextResult ("Debug error: " ++ "fetch failed"))
    ∧ (handleDebug ⟨some "memories"⟩ ⟨none, .ok .null, .error "scroll failed"⟩).1
      = .ok (mkTextResult ("Debug error: " ++ "scroll failed"))
    ∧ handleDebug ⟨none⟩ ⟨some "", .ok .null, .ok .null⟩
      = (.error "Collection name is required", []) := by
  have h1 := handleDebug_catches_inspection_failures ⟨some "memories"⟩
    ⟨none, .error "fetch failed", .ok .null⟩ "memories"
  have h2 := handleDebug_catches_inspection_failures ⟨some "memories"⟩
    ⟨none, .ok .null, .error "scroll failed"⟩ "memories"
  have h3 := handleDebug_catches_inspection_failures ⟨none⟩
    ⟨some "", .ok .null, .ok .null⟩ "x"
  exact ⟨(h1.1 rfl).2.1 _ rfl, (h2.1 rfl).2.2 _ _ rfl rfl, h3.2 rfl⟩
